import Mathlib

/-!
Verification of the reusable logic in `src/src/routes/player.tsx`
(ReactPlayerDebugger): the bounded event log, the local-storage-backed
preference store, the deferred pause/play toggle, and the playback
callback handlers. Each TypeScript function is shallowly embedded as an
executable Lean definition; the theorems below settle the documented
properties of those definitions.
-/

namespace PlayerDebugger

/-- A line of the callback log panel (interface LogEntry, player.tsx
lines 13-17): a locale time-of-day string, the callback event name, and
the JSON-serialized payload. -/
structure LogEntry where
  timestamp : String
  event : String
  data : String
deriving DecidableEq

/-- The playback snapshot kept in component state (interface PlayerState,
player.tsx lines 19-25). Numbers are modelled as rationals. -/
structure PlayerState where
  duration : ℚ
  played : ℚ
  playedSeconds : ℚ
  loaded : ℚ
  loadedSeconds : ℚ
deriving DecidableEq

/-- The argument of the progress callback (interface ProgressState,
player.tsx lines 27-32). -/
structure ProgressState where
  played : ℚ
  playedSeconds : ℚ
  loaded : ℚ
  loadedSeconds : ℚ
deriving DecidableEq

/-- The state update performed by addLog (player.tsx line 106):
setCallbackLogs applies prev to the entry prepended at the head, then
sliced to the first 50 elements; slice(0, 50) is List.take 50. -/
def addLogEntry (e : LogEntry) (prev : List LogEntry) : List LogEntry :=
  (e :: prev).take 50

/-- addLog (player.tsx lines 98-109): builds a LogEntry from the
call-time timestamp, the event name and the serialized payload, and
pushes it through addLogEntry. The timestamp string and the serialized
data string are computed by the host (new Date and JSON.stringify) and
arrive here as arguments. -/
def addLog (timestamp event data : String) (prev : List LogEntry) : List LogEntry :=
  addLogEntry { timestamp := timestamp, event := event, data := data } prev

/-- A whole sequence of addLog calls, oldest call first, applied to a
starting log state. -/
def runAppends (events : List LogEntry) (init : List LogEntry) : List LogEntry :=
  events.foldl (fun log e => addLogEntry e log) init

/-- Truncating the second summand of an append before an outer take is
absorbed by the outer take. -/
lemma take_append_take {α : Type} (a b : List α) (n : Nat) :
    (a ++ b.take n).take n = (a ++ b).take n := by
  rw [List.take_append_eq_append_take, List.take_append_eq_append_take,
    List.take_take]
  have h : min (n - a.length) n = n - a.length :=
    Nat.min_eq_left (Nat.sub_le n a.length)
  rw [h]

/-- Closed form of a sequence of appends: the result is the reversed
event sequence in front of the initial log, truncated to 50. -/
lemma runAppends_eq (events : List LogEntry) (init : List LogEntry)
    (h : init.length ≤ 50) :
    runAppends events init = (events.reverse ++ init).take 50 := by
  induction events generalizing init with
  | nil =>
    simp [runAppends, List.take_of_length_le h]
  | cons e es ih =>
    have hlen : (addLogEntry e init).length ≤ 50 := by
      simp [addLogEntry]
    have step : runAppends (e :: es) init = runAppends es (addLogEntry e init) := rfl
    rw [step, ih (addLogEntry e init) hlen]
    show (es.reverse ++ (e :: init).take 50).take 50 = _
    rw [take_append_take]
    simp

/-- Claim C1: for every sequence of append calls starting from any log
state of length at most 50, the log length never exceeds 50 entries and
the entries are ordered newest-first: the resulting log is exactly the
reversed append sequence in front of the initial entries, truncated to
50, because each append prepends at the head and truncates to 50. -/
theorem log_bounded_newest_first (events init : List LogEntry)
    (h : init.length ≤ 50) :
    (runAppends events init).length ≤ 50
    ∧ runAppends events init = (events.reverse ++ init).take 50 := by
  refine ⟨?_, runAppends_eq events init h⟩
  rw [runAppends_eq events init h]
  exact List.length_take_le _ _

/-- Witness for C1 at a concrete input: two appends onto the empty log. -/
theorem log_bounded_newest_first_witness :
    ([] : List LogEntry).length ≤ 50
    ∧ ((runAppends [ ⟨ "t1", "onPlay", "d1" ⟩, ⟨ "t2", "onPause", "d2" ⟩ ] []).length ≤ 50
       ∧ runAppends [ ⟨ "t1", "onPlay", "d1" ⟩, ⟨ "t2", "onPause", "d2" ⟩ ] []
         = (([ ⟨ "t1", "onPlay", "d1" ⟩, ⟨ "t2", "onPause", "d2" ⟩ ] : List LogEntry).reverse ++ []).take 50) :=
  ⟨by decide, log_bounded_newest_first _ _ (by decide)⟩

/-- Claim C2: appending 55 events to an initially empty log yields a log
of length exactly 50 whose entries are the 50 most recent of the 55
events in newest-first order; the 5 oldest are evicted. -/
theorem log_55_appends (events : List LogEntry) (h : events.length = 55) :
    (runAppends events []).length = 50
    ∧ runAppends events [] = (events.drop 5).reverse := by
  have heq : runAppends events [] = events.reverse.take 50 := by
    rw [runAppends_eq events [] (by simp)]
    simp
  constructor
  · rw [heq, List.length_take, List.length_reverse, h]
    decide
  · rw [heq, List.take_reverse, h]

/-- Fifty-five distinct log entries, used as the concrete input of the
witness for C2. -/
def fiftyFiveEvents : List LogEntry :=
  (List.range 55).map (fun i => { timestamp := "t", event := toString i, data := "d" })

/-- Witness for C2 at a concrete input: 55 distinct events. -/
theorem log_55_appends_witness :
    fiftyFiveEvents.length = 55
    ∧ ((runAppends fiftyFiveEvents []).length = 50
       ∧ runAppends fiftyFiveEvents [] = (fiftyFiveEvents.drop 5).reverse) :=
  ⟨by decide, log_55_appends fiftyFiveEvents (by decide)⟩

/-- JSON values this page stores: booleans (isPlaying, hiddenVideo,
muted) and numbers (volume). A number is kept as a scaled decimal
m / 10 ^ e, the form in which the page reads and writes JSON number
literals such as 0.5. -/
inductive JsonVal where
  | jbool : Bool → JsonVal
  | jnum : Int → Nat → JsonVal
deriving DecidableEq

/-- Left-pads a digit string with zeros to length n. -/
def padZeros (s : String) (n : Nat) : String :=
  String.mk (List.replicate (n - s.length) '0') ++ s

/-- Renders the scaled decimal m / 10 ^ e as a JSON number literal: the
plain integer when e = 0, otherwise sign, integer part, a dot, and
exactly e fraction digits. -/
def decimalString (m : Int) (e : Nat) : String :=
  if e = 0 then toString m
  else
    (if m < 0 then "-" else "")
      ++ toString (m.natAbs / 10 ^ e)
      ++ "."
      ++ padZeros (toString (m.natAbs % 10 ^ e)) e

/-- Models the host JSON.stringify on the values this page stores. -/
def jsonStringify : JsonVal → String
  | JsonVal.jbool true => "true"
  | JsonVal.jbool false => "false"
  | JsonVal.jnum m e => decimalString m e

/-- Reads a nonempty all-digit character list as a natural number. -/
def parseDigits (cs : List Char) : Option Nat :=
  if cs ≠ [] ∧ cs.all Char.isDigit then
    some (cs.foldl (fun acc c => acc * 10 + (c.toNat - 48)) 0)
  else none

/-- Reads an unsigned decimal literal as a scaled decimal: the value
scaled up to an integer, with the number of fraction digits. -/
def parseDecimal (cs : List Char) : Option (Nat × Nat) :=
  match cs.span (fun c => c != '.') with
  | (ipart, []) => (parseDigits ipart).map (fun n => (n, 0))
  | (ipart, _ :: fpart) => do
    let ip ← parseDigits ipart
    let fp ← parseDigits fpart
    pure (ip * 10 ^ fpart.length + fp, fpart.length)

/-- Models the host JSON.parse on the strings this page can meet in
durable storage: the boolean literals and decimal number literals parse;
every other string makes JSON.parse throw, modelled as none. -/
def jsonParse (s : String) : Option JsonVal :=
  if s = "true" then some (JsonVal.jbool true)
  else if s = "false" then some (JsonVal.jbool false)
  else
    match s.toList with
    | '-' :: rest =>
      (parseDecimal rest).map (fun p => JsonVal.jnum (-(p.1 : Int)) p.2)
    | cs =>
      (parseDecimal cs).map (fun p => JsonVal.jnum (p.1 : Int) p.2)

/-- Durable key-value storage (window.localStorage): a finite map from
string keys to string values. -/
abbrev Storage := List (String × String)

/-- Models localStorage.getItem: the stored string for key, or none. -/
def Storage.getItem (st : Storage) (key : String) : Option String :=
  (st.find? (fun kv => kv.1 == key)).map (fun kv => kv.2)

/-- Models localStorage.setItem: replaces the value stored at key, or
appends the binding when the key is new. -/
def Storage.setItem : Storage → String → String → Storage
  | [], key, v => [(key, v)]
  | (k, w) :: rest, key, v =>
    if k = key then (key, v) :: rest else (k, w) :: Storage.setItem rest key v

/-- The lazy useState initializer of useLocalStorageState (player.tsx
lines 38-46). window is none when no host environment exists (typeof
window is undefined); a stored string on which JSON.parse throws is
caught and replaced by the initial value. -/
def useLocalStorageState (window : Option Storage) (key : String)
    (initialValue : JsonVal) : JsonVal :=
  match window with
  | none => initialValue
  | some st =>
    match Storage.getItem st key with
    | none => initialValue
    | some item =>
      match jsonParse item with
      | none => initialValue
      | some v => v

/-- One mounted useLocalStorageState hook: the in-memory React state and
the window durable storage it mirrors into. -/
structure HookSession where
  state : JsonVal
  window : Storage
deriving DecidableEq

/-- setValue (player.tsx lines 48-55): attempts to persist the value
with localStorage.setItem inside a try block whose catch ignores write
errors (writeSucceeds false leaves storage untouched), then
unconditionally writes the value to the in-memory state. -/
def setValue (writeSucceeds : Bool) (key : String) (value : JsonVal)
    (s : HookSession) : HookSession :=
  { state := value,
    window :=
      if writeSucceeds then Storage.setItem s.window key (jsonStringify value)
      else s.window }

/-- Claim C3: initializing the hook returns the default when durable
storage is unavailable, when it has no entry for the key, and when its
entry for the key fails to parse; the initializer is a total function
into the value type, so no error reaches the caller in any case. -/
theorem init_falls_back_to_default (key : String) (dflt : JsonVal)
    (st : Storage) :
    useLocalStorageState none key dflt = dflt
    ∧ (Storage.getItem st key = none →
        useLocalStorageState (some st) key dflt = dflt)
    ∧ (∀ item, Storage.getItem st key = some item → jsonParse item = none →
        useLocalStorageState (some st) key dflt = dflt) := by
  refine ⟨rfl, ?_, ?_⟩
  · intro h
    simp [useLocalStorageState, h]
  · intro item h hp
    simp [useLocalStorageState, h, hp]

/-- Witness for C3 at concrete inputs: no host window, an empty storage,
and a storage whose entry for the key is not valid JSON. -/
theorem init_falls_back_to_default_witness :
    useLocalStorageState none "volume" (JsonVal.jbool true) = JsonVal.jbool true
    ∧ useLocalStorageState (some []) "volume" (JsonVal.jbool true) = JsonVal.jbool true
    ∧ useLocalStorageState (some [( "volume", "garbage" )]) "volume" (JsonVal.jbool true)
        = JsonVal.jbool true :=
  ⟨(init_falls_back_to_default "volume" (JsonVal.jbool true) []).1,
   (init_falls_back_to_default "volume" (JsonVal.jbool true) []).2.1 rfl,
   (init_falls_back_to_default "volume" (JsonVal.jbool true)
      [( "volume", "garbage" )]).2.2 "garbage" rfl (by decide)⟩

/-- Claim C4: setValue writes the in-memory state unconditionally, so a
get immediately after it in the same session returns the new value
whether the durable write succeeded or threw, and the in-memory state
after a failed write equals the state after a successful one. -/
theorem setValue_updates_state (writeSucceeds : Bool) (key : String)
    (value : JsonVal) (s : HookSession) :
    (setValue writeSucceeds key value s).state = value
    ∧ (setValue false key value s).state = (setValue true key value s).state :=
  ⟨rfl, rfl⟩

/-- Claim C5: with empty durable storage the hook initialized with
default volume 0.5 yields 0.5; after a successful set of volume to 0.8
a fresh hook instance over the resulting storage yields 0.8, because
the serialized number 0.8 parses back to itself. -/
theorem volume_round_trip :
    useLocalStorageState (some []) "volume" (JsonVal.jnum 5 1) = JsonVal.jnum 5 1
    ∧ useLocalStorageState
        (some (setValue true "volume" (JsonVal.jnum 8 1)
          { state := JsonVal.jnum 5 1, window := [] }).window)
        "volume" (JsonVal.jnum 5 1) = JsonVal.jnum 8 1 :=
  ⟨rfl, by decide⟩

/-- Models JSON.stringify of a flat payload record: braces around the
comma-separated serialized fields; the empty record serializes to the
two braces alone. -/
def jsonObject (fields : List String) : String :=
  "\x7b" ++ String.intercalate "," fields ++ "\x7d"

/-- One serialized field of a payload record. -/
def jsonField (k v : String) : String :=
  "\"" ++ k ++ "\":" ++ v

/-- A serialized JSON string value. -/
def jsonQuote (s : String) : String :=
  "\"" ++ s ++ "\""

/-- Models the host rendering of a bare number inside a payload; the
resulting digit string is never inspected by any handler. -/
def jsonNumStr (q : ℚ) : String :=
  toString q

/-- Floor of a rational, computed by floor division of the numerator by
the denominator. -/
def ratFloor (q : ℚ) : Int :=
  Int.fdiv q.num q.den

/-- Models the host toFixed applied with two digits to a rational
playback time: the value rounded to two decimal places, rendered with
exactly two fraction digits. -/
def toFixed2 (q : ℚ) : String :=
  decimalString (ratFloor (q * 100 + 1 / 2)) 2

/-- The in-memory React state of the ReactPlayerDebugger component
(player.tsx lines 60-82), together with the two effects it sends
outward: the seek commands issued to the player and the timers scheduled
with setTimeout, kept as absolute deadlines. playerPresent models
whether playerRef.current is non-null. The four localStorage-backed
values appear here as their in-memory states; their mirroring into
durable storage is the setValue modelled above. -/
structure DebuggerState where
  playerPresent : Bool
  isPlaying : Bool
  volume : ℚ
  hiddenVideo : Bool
  muted : Bool
  url : String
  callbackLogs : List LogEntry
  playerState : PlayerState
  seekCommands : List ℚ
  pendingTimers : List Nat
deriving DecidableEq

/-- testBatchPauseAndPlay (player.tsx lines 84-89): sets the playing
flag to false and schedules a setTimeout callback 500 ms from now;
nothing cancels timers already pending. -/
def testBatchPauseAndPlay (now : Nat) (s : DebuggerState) : DebuggerState :=
  { s with isPlaying := false, pendingTimers := (now + 500) :: s.pendingTimers }

/-- The setTimeout callback scheduled by testBatchPauseAndPlay
(player.tsx lines 86-88) firing at its deadline d: it unconditionally
sets the playing flag to true, and the fired timer leaves the pending
set. -/
def fireToggleTimer (d : Nat) (s : DebuggerState) : DebuggerState :=
  { s with isPlaying := true, pendingTimers := s.pendingTimers.erase d }

/-- handleEnded (player.tsx lines 153-156): appends an onEnded entry
with the empty payload, then sets the playing flag to false. -/
def handleEnded (ts : String) (s : DebuggerState) : DebuggerState :=
  { s with
    callbackLogs := addLog ts "onEnded" (jsonObject []) s.callbackLogs,
    isPlaying := false }

/-- The Clear Logs button handler (player.tsx line 353): sets the log to
the empty list. -/
def clearLogs (s : DebuggerState) : DebuggerState :=
  { s with callbackLogs := [] }

/-- Reading the log panel (player.tsx lines 366-389): rendering reads
callbackLogs and changes no state. -/
def readLogs (s : DebuggerState) : List LogEntry :=
  s.callbackLogs

/-- handleProgress (player.tsx lines 131-143): overwrites the playback
snapshot wholesale, with the duration field set from progress.loaded,
then appends an onProgress entry carrying the played seconds and the
played percentage formatted to two decimals. -/
def handleProgress (ts : String) (p : ProgressState) (s : DebuggerState) : DebuggerState :=
  { s with
    playerState :=
      { duration := p.loaded, played := p.played,
        playedSeconds := p.playedSeconds, loaded := p.loaded,
        loadedSeconds := p.loadedSeconds },
    callbackLogs :=
      addLog ts "onProgress"
        (jsonObject
          [ jsonField "playedSeconds" (jsonQuote (toFixed2 p.playedSeconds)),
            jsonField "played" (jsonQuote (toFixed2 (p.played * 100) ++ "%")) ])
        s.callbackLogs }

/-- handleDuration (player.tsx lines 145-147): only appends an
onDuration entry; no other state is touched. -/
def handleDuration (ts : String) (d : ℚ) (s : DebuggerState) : DebuggerState :=
  { s with
    callbackLogs :=
      addLog ts "onDuration" (jsonObject [ jsonField "duration" (jsonNumStr d) ])
        s.callbackLogs }

/-- seekTo (player.tsx lines 162-167): when playerRef.current is
present, issues the seek to the player and appends a Manual seekTo
entry; when it is absent, does nothing at all. -/
def seekTo (ts : String) (seconds : ℚ) (s : DebuggerState) : DebuggerState :=
  if s.playerPresent then
    { s with
      seekCommands := seconds :: s.seekCommands,
      callbackLogs :=
        addLog ts "Manual seekTo"
          (jsonObject [ jsonField "seconds" (jsonNumStr seconds) ])
          s.callbackLogs }
  else s

/-- Claim C6: triggering the deferred toggle sets the playing flag to
false immediately and schedules its set-true callback at exactly 500 ms
after the trigger; the callback unconditionally sets the flag to true
when it fires; and a trigger cancels nothing, so every timer pending
before it is still pending after it and each trigger eventually fires
its own set-true step even when triggers overlap. -/
theorem deferred_toggle (now d : Nat) (s : DebuggerState) :
    (testBatchPauseAndPlay now s).isPlaying = false
    ∧ (now + 500) ∈ (testBatchPauseAndPlay now s).pendingTimers
    ∧ (fireToggleTimer d s).isPlaying = true
    ∧ s.pendingTimers.Sublist (testBatchPauseAndPlay now s).pendingTimers :=
  ⟨rfl, List.mem_cons_self _ _, rfl,
    List.Sublist.cons _ (List.Sublist.refl _)⟩

/-- Claim C7: every ended callback leaves the playing flag false and
puts an entry whose event name is onEnded at the head of the log; both
effects occur on every call. -/
theorem ended_logs_and_stops (ts : String) (s : DebuggerState) :
    (handleEnded ts s).isPlaying = false
    ∧ (handleEnded ts s).callbackLogs.head? =
        some { timestamp := ts, event := "onEnded", data := jsonObject [] } :=
  ⟨rfl, rfl⟩

/-- Claim C8: clearing sets the log to the empty sequence, so every read
after a clear and before any further append yields the empty log,
whatever the log held before. -/
theorem clear_empties_log (s : DebuggerState) :
    readLogs (clearLogs s) = [] :=
  rfl

/-- Claim C9: after every progress callback the snapshot duration field
equals the loaded fraction reported by the callback rather than a
duration in seconds, while the duration callback leaves the snapshot
untouched, so the snapshot duration field is never set from the reported
media duration. -/
theorem snapshot_duration_is_loaded (ts : String) (p : ProgressState)
    (d : ℚ) (s : DebuggerState) :
    (handleProgress ts p s).playerState.duration = p.loaded
    ∧ (handleDuration ts d s).playerState = s.playerState :=
  ⟨rfl, rfl⟩

/-- Claim C10: with no player reference the manual seek is a complete
no-op leaving the whole state unchanged, so no seek command is issued
and no Manual seekTo entry is appended; with the reference present the
seek command is issued and the entry is appended. -/
theorem seekTo_noop_without_player (ts : String) (seconds : ℚ)
    (s : DebuggerState) :
    (s.playerPresent = false → seekTo ts seconds s = s)
    ∧ (s.playerPresent = true →
        (seekTo ts seconds s).seekCommands = seconds :: s.seekCommands
        ∧ ((seekTo ts seconds s).callbackLogs.head?.map LogEntry.event)
            = some "Manual seekTo") := by
  constructor
  · intro h
    simp [seekTo, h]
  · intro h
    refine ⟨?_, ?_⟩
    · simp [seekTo, h]
    · simp [seekTo, h, addLog, addLogEntry]

/-- A concrete component state without a player reference, the input of
the witness for C10. -/
def noPlayerState : DebuggerState :=
  { playerPresent := false, isPlaying := true, volume := 1 / 2,
    hiddenVideo := false, muted := false,
    url := "https://www.youtube.com/watch?v=8Pa9x9fZBtY",
    callbackLogs := [], playerState := ⟨ 0, 0, 0, 0, 0 ⟩,
    seekCommands := [], pendingTimers := [] }

/-- The same concrete component state with a player reference present. -/
def withPlayerState : DebuggerState :=
  { noPlayerState with playerPresent := true }

/-- Witness for C10 at concrete inputs: a seek to 30 s without and with
the player reference. -/
theorem seekTo_noop_without_player_witness :
    (seekTo "t" 30 noPlayerState = noPlayerState)
    ∧ ((seekTo "t" 30 withPlayerState).seekCommands
          = 30 :: withPlayerState.seekCommands
       ∧ ((seekTo "t" 30 withPlayerState).callbackLogs.head?.map LogEntry.event)
            = some "Manual seekTo") :=
  ⟨(seekTo_noop_without_player "t" 30 noPlayerState).1 rfl,
   (seekTo_noop_without_player "t" 30 withPlayerState).2 rfl⟩

end PlayerDebugger
